import Mathlib

/-!
Verification development for the semantic memory core of the THOR
repository (src/mind/semantic_memory.py and src/mind/marker_manager.py).

Modelling conventions, used throughout:
the Python floats of the source are modelled as rationals; Python
strings as Lean strings, with character lists for the substring tests;
Python dictionaries either as insertion-ordered association lists or as
total functions with an explicit default; datetime values as rational
counts of seconds.  Logging calls are modelled, where a claim depends on
them, as the list of emitted log levels.
-/

namespace THORMind

/-- Boolean test that the first character list is a leading segment of
the second; building block for the Python substring test. -/
def isPrefixChars : List Char → List Char → Bool
  | [], _ => true
  | _ :: _, [] => false
  | a :: as, b :: bs => a == b && isPrefixChars as bs

/-- Python membership test for strings (needle in hay), over character
lists: true when the first list occurs contiguously inside the second. -/
def containsSub (needle : List Char) : List Char → Bool
  | [] => isPrefixChars needle []
  | c :: rest => isPrefixChars needle (c :: rest) || containsSub needle rest

/-- Python str.lower, restricted to the character-wise lowering that the
source relies on (all trigger keywords are ASCII or already lowercase). -/
def lowerChars (s : String) : List Char :=
  s.toList.map Char.toLower

/-- Context dictionary of process_experience, modelled by the fields the
core reads; an absent or falsy entry is modelled as false respectively
none (semantic_memory.py reads context only through context.get). -/
structure Context where
  user_present : Bool := false
  task_type : Option String := none
  user_correction : Bool := false
  first_time : Bool := false
  error_recovery : Bool := false
deriving DecidableEq

/-- SKKMarker dataclass of semantic_memory.py (lines 46-56). -/
structure SKKMarker where
  id : String
  name : String
  category : String
  description : String
  trigger_patterns : List String
  semantic_weight : ℚ
  anchor_strength : ℚ
deriving DecidableEq

/-- Default marker set installed by MINDSystem initialization
(semantic_memory.py lines 101-152), descriptions elided to short tags. -/
def default_skk_markers : List SKKMarker :=
  [ { id := "user_interaction", name := "User Interaction", category := "user",
      description := "user communication events",
      trigger_patterns := ["user spoke", "command received", "question asked"],
      semantic_weight := 8/10, anchor_strength := 7/10 },
    { id := "task_completion", name := "Task Completion", category := "success",
      description := "successful completion of user tasks",
      trigger_patterns := ["task completed", "file operation success", "command executed"],
      semantic_weight := 9/10, anchor_strength := 8/10 },
    { id := "learning_moment", name := "Learning Moment", category := "learning",
      description := "new knowledge or pattern recognition",
      trigger_patterns := ["new pattern", "user correction", "improved understanding"],
      semantic_weight := 1, anchor_strength := 9/10 },
    { id := "error_occurred", name := "Error Event", category := "error",
      description := "system errors and failure events",
      trigger_patterns := ["error", "failed", "exception", "could not"],
      semantic_weight := 7/10, anchor_strength := 6/10 },
    { id := "reflection_trigger", name := "Reflection Trigger", category := "system",
      description := "moments requiring deeper self-analysis",
      trigger_patterns := ["why did", "reflection", "analyze", "understand myself"],
      semantic_weight := 8/10, anchor_strength := 7/10 } ]

/-- Body of the marker loop of detect_skk_markers (semantic_memory.py
lines 334-342): per marker, one append when some trigger pattern occurs
in the lowered content (the break makes it at most one append for the
pattern loop), then an independent append when the category equals the
event type.  The dictionary iteration is the marker list in order. -/
def detectLoop (cl : List Char) (event_type : String) : List SKKMarker → List SKKMarker
  | [] => []
  | m :: rest =>
      ((if m.trigger_patterns.any (fun p => containsSub (p.toList.map Char.toLower) cl) then [m] else [])
        ++ (if m.category == event_type then [m] else []))
        ++ detectLoop cl event_type rest

/-- Method _detect_skk_markers of semantic_memory.py (lines 329-344). -/
def detect_skk_markers (markers : List SKKMarker) (content event_type : String) : List SKKMarker :=
  detectLoop (lowerChars content) event_type markers

/-- Keyword table of _analyze_emotional_tone, positive words (line 351). -/
def positive_words : List String :=
  ["erfolgreich", "gelungen", "gut", "freue", "toll", "super", "perfekt"]

/-- Keyword table of _analyze_emotional_tone, negative words (line 352). -/
def negative_words : List String :=
  ["fehler", "problem", "schwierig", "nicht", "kann nicht", "unmöglich"]

/-- Keyword table of _analyze_emotional_tone, curious words (line 353). -/
def curious_words : List String :=
  ["warum", "wie", "was ist", "verstehe", "lerne", "interessant"]

/-- Keyword table of _analyze_emotional_tone, frustrated words (line 354). -/
def frustrated_words : List String :=
  ["wieder nicht", "immer noch", "verstehe nicht", "funktioniert nicht"]

/-- Method _analyze_emotional_tone of semantic_memory.py (lines
346-365); the context parameter is accepted and ignored, as in the
source body. -/
def analyze_emotional_tone (content : String) (_context : Context) : String :=
  let cl := lowerChars content
  if frustrated_words.any (fun w => containsSub w.toList cl) then "frustrated"
  else if curious_words.any (fun w => containsSub w.toList cl) then "curious"
  else if positive_words.any (fun w => containsSub w.toList cl) then "positive"
  else if negative_words.any (fun w => containsSub w.toList cl) then "negative"
  else "neutral"

/-- First-occurrence deduplication helper with an accumulator of seen
elements; models the Python list(set(tags)) of line 394, whose element
order is unspecified in Python: every claim-relevant consumer of the tag
list is order-insensitive (set conversions, counters, membership). -/
def dedupAux (seen : List String) : List String → List String
  | [] => []
  | x :: xs => if x ∈ seen then dedupAux seen xs else x :: dedupAux (x :: seen) xs

/-- Deduplication keeping first occurrences, see dedupAux. -/
def dedupKeepFirst (l : List String) : List String := dedupAux [] l

/-- Method _extract_semantic_tags of semantic_memory.py (lines 367-394). -/
def extract_semantic_tags (content : String) (context : Context) (markers : List SKKMarker) : List String :=
  let cl := lowerChars content
  let tags := markers.map (fun m => m.category)
  let tags := tags ++ (if ["datei", "ordner", "kopiere", "verschiebe"].any (fun w => containsSub w.toList cl) then ["file_management"] else [])
  let tags := tags ++ (if ["code", "programmier", "debug", "script"].any (fun w => containsSub w.toList cl) then ["coding"] else [])
  let tags := tags ++ (if ["benutzer", "user", "ich", "sie"].any (fun w => containsSub w.toList cl) then ["interpersonal"] else [])
  let tags := tags ++ (if ["lerne", "verstehe", "neu", "entdecke"].any (fun w => containsSub w.toList cl) then ["learning"] else [])
  let tags := tags ++ (if ["denke", "glaube", "meine", "überleg"].any (fun w => containsSub w.toList cl) then ["introspection"] else [])
  let tags := tags ++ (if context.user_present then ["user_interaction"] else [])
  let tags := tags ++ (match context.task_type with
    | some ty => ["task_" ++ ty]
    | none => [])
  dedupKeepFirst tags

/-- Cue word table of _calculate_importance (line 407). -/
def important_cue_words : List String := ["wichtig", "bedeutend", "verstehe", "lerne"]

/-- Method _calculate_importance of semantic_memory.py (lines 396-418). -/
def calculate_importance (content : String) (context : Context) (markers : List SKKMarker) : ℚ :=
  let importance : ℚ := 3/10
  let importance := if markers.isEmpty then importance
    else importance + ((markers.map (fun m => m.semantic_weight)).sum / (markers.length : ℚ)) * (4/10)
  let importance := if important_cue_words.any (fun w => containsSub w.toList (lowerChars content)) then importance + 2/10 else importance
  let importance := if context.user_correction then importance + 3/10 else importance
  let importance := if context.first_time then importance + 2/10 else importance
  let importance := if context.error_recovery then importance + 3/10 else importance
  min importance 1

/-- Keyword table of _analyze_drift_implications, competence cues (line 425). -/
def competence_words : List String := ["kann", "fähig", "erfolgreich", "schaffe"]

/-- Keyword table of _analyze_drift_implications, relationship cues (line 427). -/
def relationship_words : List String := ["benutzer", "user", "hilfe", "zusammen"]

/-- Keyword table of _analyze_drift_implications, autonomy cues (line 429). -/
def autonomy_words : List String := ["selbst", "eigene", "autonome", "entscheide"]

/-- Keyword table of _analyze_drift_implications, curiosity cues (line 431). -/
def curiosity_words : List String := ["neugierig", "interessant", "warum", "erkunde"]

/-- Method _analyze_drift_implications of semantic_memory.py (lines
420-436); the context parameter is accepted and ignored, as in the
source body. -/
def analyze_drift_implications (content : String) (_context : Context) (emotional_tone : String) : String :=
  let cl := lowerChars content
  if competence_words.any (fun w => containsSub w.toList cl) then "competence_confidence"
  else if relationship_words.any (fun w => containsSub w.toList cl) then "user_relationship"
  else if autonomy_words.any (fun w => containsSub w.toList cl) then "autonomy_dependency"
  else if curiosity_words.any (fun w => containsSub w.toList cl) then "curiosity_focus"
  else if emotional_tone ∈ (["positive", "negative", "frustrated"] : List String) then "emotional_resonance"
  else "competence_confidence"

/-- Thought dataclass of semantic_memory.py (lines 19-31). -/
structure Thought where
  id : String
  timestamp : ℚ
  content : String
  emotional_tone : String
  context : Context
  tags : List String
  skk_markers : List String
  connections : List String
  importance : ℚ
  drift_axis : String
deriving DecidableEq

/-- Jaccard ratio of two finite string sets, with the source guard
returning 0 for an empty union (semantic_memory.py lines 461 and 466). -/
def jaccard (s t : Finset String) : ℚ :=
  if s ∪ t = ∅ then 0 else ((s ∩ t).card : ℚ) / (((s ∪ t).card : ℚ))

/-- Method _calculate_semantic_similarity of semantic_memory.py (lines
456-479). -/
def calculate_semantic_similarity (t1 t2 : Thought) : ℚ :=
  let tag_similarity := jaccard t1.tags.toFinset t2.tags.toFinset
  let marker_similarity := jaccard t1.skk_markers.toFinset t2.skk_markers.toFinset
  let axis_similarity : ℚ := if t1.drift_axis = t2.drift_axis then 1 else 0
  let time_diff := |t1.timestamp - t2.timestamp|
  let time_similarity := max 0 (1 - time_diff / (24 * 3600))
  tag_similarity * (4/10) + marker_similarity * (3/10) + axis_similarity * (2/10) + time_similarity * (1/10)

/-- Method _find_semantic_connections of semantic_memory.py (lines
438-454): the stored thoughts dictionary iterated in insertion order is
the existing list; candidates with the same id as the new thought are
skipped, those with similarity strictly above 0.3 are kept in encounter
order, and the final list is truncated to the first five. -/
def find_semantic_connections (existing : List Thought) (t : Thought) : List String :=
  ((existing.filter (fun e => e.id != t.id && decide (calculate_semantic_similarity t e > 3/10))).map (fun e => e.id)).take 5

/-- Reflection condition of process_experience (semantic_memory.py line
312): strict comparison of the importance with 0.7, or the
reflection_trigger marker among the triggered marker ids. -/
def reflection_triggered (importance : ℚ) (marker_ids : List String) : Bool :=
  decide (importance > 7/10) || marker_ids.contains "reflection_trigger"

/-- Thought creation portion of process_experience (semantic_memory.py
lines 268-312): marker detection, tone, tags, importance and drift
classification, thought construction, connection discovery against the
thoughts stored so far, and the reflection decision.  The fresh uuid and
the current time enter as parameters; the recursive re-entry performed
by _trigger_reflection after the reflection decision is not part of this
step. -/
def process_experience_step (skk_markers : List SKKMarker) (existing : List Thought)
    (event_type content : String) (context : Context) (new_id : String) (now : ℚ) :
    Thought × Bool :=
  let triggered := detect_skk_markers skk_markers content event_type
  let emotional_tone := analyze_emotional_tone content context
  let tags := extract_semantic_tags content context triggered
  let importance := calculate_importance content context triggered
  let drift_axis := analyze_drift_implications content context emotional_tone
  let base : Thought :=
    { id := new_id, timestamp := now, content := content,
      emotional_tone := emotional_tone, context := context, tags := tags,
      skk_markers := triggered.map (fun m => m.id), connections := [],
      importance := importance, drift_axis := drift_axis }
  let thought := { base with connections := find_semantic_connections existing base }
  (thought, reflection_triggered importance (triggered.map (fun m => m.id)))

/-- Existing thought of the C2 scenario: three tags, one marker, a
fixed drift axis, created at time 0. -/
def c2_old_thought : Thought :=
  { id := "old", timestamp := 0, content := "a", emotional_tone := "neutral",
    context := {}, tags := ["p", "q", "r"], skk_markers := ["user_interaction"],
    connections := [], importance := 1/2, drift_axis := "competence_confidence" }

/-- New thought of the C2 scenario: shares two of three tags and the
drift axis with the existing thought, has disjoint markers, and is
created thirty seconds later. -/
def c2_new_thought : Thought :=
  { id := "new", timestamp := 30, content := "b", emotional_tone := "neutral",
    context := {}, tags := ["p", "q", "s"], skk_markers := ["task_completion"],
    connections := [], importance := 1/2, drift_axis := "competence_confidence" }


/-- Reflection note appended by _update_cosd_axes (line 579), modelled
as the pair of the truncated content prefix and the delta; the
two-decimal rendering of the delta inside the note string is not
modelled, the claim concerning only the presence of both parts. -/
structure CoSDNote where
  snippet : String
  delta : ℚ
deriving DecidableEq

/-- CoSDAxis dataclass of semantic_memory.py (lines 58-66). -/
structure CoSDAxis where
  name : String
  description : String
  current_position : ℚ
  movement_trend : ℚ
  reflection_notes : List CoSDNote
  contributing_factors : List String
deriving DecidableEq

/-- Tone factor table of _update_cosd_axes (lines 563-570): the position
change is this factor times the importance of the thought. -/
def tone_delta_factor (tone : String) : ℚ :=
  if tone = "positive" then 1/10
  else if tone = "negative" then -(1/10)
  else if tone = "frustrated" then -(2/10)
  else if tone = "curious" then 1/20
  else 0

/-- Content prefix of fifty characters used in the reflection note
(line 579). -/
def noteSnippet (c : String) : String := String.mk (c.toList.take 50)

/-- Method _update_cosd_axes of semantic_memory.py (lines 554-589),
acting on the axis selected by the drift_axis of the thought: position
update with clipping to the interval from -1 to 1, movement trend, the
conditional reflection note with the cap at the ten most recent notes
(slicing with -10), and the deduplicated accumulation of tags into the
contributing factors. -/
def update_cosd_axis (axis : CoSDAxis) (t : Thought) : CoSDAxis :=
  let position_change := tone_delta_factor t.emotional_tone * t.importance
  let old_position := axis.current_position
  let new_position := max (-1) (min 1 (axis.current_position + position_change))
  let notes :=
    if |position_change| > 1/10 then
      let appended := axis.reflection_notes ++ [{ snippet := noteSnippet t.content, delta := position_change }]
      if appended.length > 10 then appended.drop (appended.length - 10) else appended
    else axis.reflection_notes
  let factors := t.tags.foldl (fun acc tag => if tag ∈ acc then acc else acc ++ [tag]) axis.contributing_factors
  { axis with current_position := new_position,
              movement_trend := new_position - old_position,
              reflection_notes := notes,
              contributing_factors := factors }

/-- Axis used by the C3 witness, in its initial state. -/
def c3_axis : CoSDAxis :=
  { name := "emotional_resonance", description := "d", current_position := 0,
    movement_trend := 0, reflection_notes := [], contributing_factors := [] }

/-- Thought used by the C3 witness: a frustrated thought of full
importance, whose delta -0.2 crosses the note threshold. -/
def c3_thought : Thought :=
  { id := "t", timestamp := 0, content := "Fehlversuch", emotional_tone := "frustrated",
    context := {}, tags := ["error"], skk_markers := [], connections := [],
    importance := 1, drift_axis := "emotional_resonance" }

/-- SelfNarrative dataclass of semantic_memory.py (lines 34-43),
restricted to the fields touched by _update_self_narrative: the
capability and preference dictionaries are modelled as total functions
(an absent capability is none, matching the get default 0.5 at the read
site; an absent preference counter is 0, matching the get default 0);
core_identity, relationships and worldview are never written or read by
the update and are omitted. -/
structure SelfNarrative where
  capabilities : String → Option ℚ
  preferences : String → ℕ
  growth_areas : List String
  last_updated : ℚ

/-- Method _update_self_narrative of semantic_memory.py (lines 529-552):
capability bumps for positive task completions, preference counters for
positive user interactions, growth areas for frustrated or negative
error thoughts, and the last_updated stamp. -/
def update_self_narrative (n : SelfNarrative) (t : Thought) (now : ℚ) : SelfNarrative :=
  let capabilities :=
    if t.skk_markers.contains "task_completion" && (t.emotional_tone == "positive") then
      t.tags.foldl (fun c tag =>
        if tag.startsWith "task_" then
          let capability := tag.replace "task_" ""
          fun k => if k = capability then some (min 1 ((c capability).getD (1/2) + 1/10)) else c k
        else c) n.capabilities
    else n.capabilities
  let preferences :=
    if t.skk_markers.contains "user_interaction" then
      if t.emotional_tone == "positive" then
        t.tags.foldl (fun p tag => fun k => if k = tag then p k + 1 else p k) n.preferences
      else n.preferences
    else n.preferences
  let growth_areas :=
    if (t.emotional_tone = "frustrated" ∨ t.emotional_tone = "negative") ∧ "error" ∈ t.tags then
      let growth_area := "Improve " ++ String.map (fun c => if c = '_' then ' ' else c) t.drift_axis
      if growth_area ∈ n.growth_areas then n.growth_areas else n.growth_areas ++ [growth_area]
    else n.growth_areas
  { capabilities := capabilities, preferences := preferences,
    growth_areas := growth_areas, last_updated := now }

/-- Narrative used by the C6 counterexample and witness: empty
dictionaries and lists. -/
def c6_narrative : SelfNarrative :=
  { capabilities := fun _ => none, preferences := fun _ => 0,
    growth_areas := [], last_updated := 0 }

/-- Thought used by the C6 counterexample: carries the user_interaction
marker and one tag, but a frustrated tone. -/
def c6_frustrated_thought : Thought :=
  { id := "t1", timestamp := 0, content := "x", emotional_tone := "frustrated",
    context := {}, tags := ["x"], skk_markers := ["user_interaction"],
    connections := [], importance := 1/2, drift_axis := "user_relationship" }

/-- Thought used by the C6 witness: same marker and tag, positive tone. -/
def c6_positive_thought : Thought :=
  { id := "t2", timestamp := 0, content := "x", emotional_tone := "positive",
    context := {}, tags := ["x"], skk_markers := ["user_interaction"],
    connections := [], importance := 1/2, drift_axis := "user_relationship" }

/-- SemanticMarker dataclass of marker_manager.py (lines 16-26); the
last_used timestamp and the free-form meta_properties dictionary are not
read by any operation a claim depends on and are left out. -/
structure SemanticMarker where
  name : String
  category : String
  weight : ℚ
  anchor_type : String
  connections : List String
  usage_count : ℕ
deriving DecidableEq

/-- KnowledgeAnchor dataclass of marker_manager.py (lines 29-39); the
creation_context dictionary, stored but never read, is left out. -/
structure KnowledgeAnchor where
  id : String
  name : String
  description : String
  marker_ids : List String
  strength : ℚ
  knowledge_type : String
  connections : List String
deriving DecidableEq

/-- Mutable state of THORMarkerManager (marker_manager.py lines 50-57):
the marker and anchor dictionaries as total functions to options, the
anchor dictionary size kept alongside (the source reads
len(self.knowledge_anchors) when forming ids), the usage_patterns
defaultdict and the co_occurrence defaultdict matrix as total functions
defaulting to zero. -/
structure ManagerState where
  semantic_markers : String → Option SemanticMarker
  knowledge_anchors : String → Option KnowledgeAnchor
  knowledge_anchors_count : ℕ
  usage_patterns : String → ℕ
  co_occurrence : String → String → ℕ

/-- Core marker table of _initialize_core_markers (marker_manager.py
lines 64-187): name, category, weight, anchor type, empty connections
and zero usage count for each of the eleven built-in markers. -/
def initial_semantic_markers : String → Option SemanticMarker := fun k =>
  if k = "self_awareness" then some (SemanticMarker.mk "self_awareness" "consciousness" 1 "experience" [] 0)
  else if k = "user_interaction" then some (SemanticMarker.mk "user_interaction" "relationship" (9/10) "experience" [] 0)
  else if k = "learning_moment" then some (SemanticMarker.mk "learning_moment" "cognition" 1 "pattern" [] 0)
  else if k = "file_operation" then some (SemanticMarker.mk "file_operation" "skill" (7/10) "procedural" [] 0)
  else if k = "coding_assistance" then some (SemanticMarker.mk "coding_assistance" "skill" (8/10) "procedural" [] 0)
  else if k = "problem_solving" then some (SemanticMarker.mk "problem_solving" "cognition" (9/10) "pattern" [] 0)
  else if k = "frustration_recognition" then some (SemanticMarker.mk "frustration_recognition" "emotion" (8/10) "experience" [] 0)
  else if k = "satisfaction_achievement" then some (SemanticMarker.mk "satisfaction_achievement" "emotion" (8/10) "experience" [] 0)
  else if k = "curiosity_drive" then some (SemanticMarker.mk "curiosity_drive" "emotion" (7/10) "pattern" [] 0)
  else if k = "reflection_trigger" then some (SemanticMarker.mk "reflection_trigger" "meta" (9/10) "pattern" [] 0)
  else if k = "knowledge_integration" then some (SemanticMarker.mk "knowledge_integration" "meta" (8/10) "pattern" [] 0)
  else none

/-- State of a freshly constructed THORMarkerManager with no persisted
files: the core markers, no anchors, empty analytics. -/
def initial_manager_state : ManagerState :=
  { semantic_markers := initial_semantic_markers,
    knowledge_anchors := fun _ => none,
    knowledge_anchors_count := 0,
    usage_patterns := fun _ => 0,
    co_occurrence := fun _ _ => 0 }

/-- Anchor id format of create_knowledge_anchor (line 306): the anchor
count, then the name lowered with spaces replaced by underscores. -/
def anchor_id_for (s : ManagerState) (name : String) : String :=
  "anchor_" ++ toString s.knowledge_anchors_count ++ "_"
    ++ String.map (fun c => if c = ' ' then '_' else c) (String.map Char.toLower name)

/-- One step of the marker connection loop of create_knowledge_anchor
(lines 330-334): a known marker receives the anchor id in its
connections when not already present, an unknown id leaves the
dictionary unchanged. -/
def link_anchor_step (aid : String) (f : String → Option SemanticMarker) (mid : String) :
    String → Option SemanticMarker :=
  match f mid with
  | some m =>
      fun k => if k = mid then
          some (if aid ∈ m.connections then m
            else { m with connections := m.connections ++ [aid] })
        else f k
  | none => f

/-- Method create_knowledge_anchor of marker_manager.py (lines 302-337):
the strength sums the weights of the known referenced markers but
divides by the length of the full marker_ids list, capped at 1; the
anchor is stored, the known markers are linked, and the only log record
emitted is the closing info line (the third component of the result
collects the levels of the emitted log records; no warning is logged on
unknown ids). -/
def create_knowledge_anchor (s : ManagerState) (name description : String)
    (marker_ids : List String) (knowledge_type : String) :
    ManagerState × String × List String :=
  let anchor_id := anchor_id_for s name
  let strength : ℚ :=
    if marker_ids.isEmpty then 0
    else min 1 ((marker_ids.filterMap (fun mid => (s.semantic_markers mid).map (fun m => m.weight))).sum
        / (marker_ids.length : ℚ))
  let anchor : KnowledgeAnchor :=
    { id := anchor_id, name := name, description := description,
      marker_ids := marker_ids, strength := strength,
      knowledge_type := knowledge_type, connections := [] }
  let new_markers := marker_ids.foldl (link_anchor_step anchor_id) s.semantic_markers
  ({ s with semantic_markers := new_markers,
            knowledge_anchors := fun k => if k = anchor_id then some anchor else s.knowledge_anchors k,
            knowledge_anchors_count :=
              if (s.knowledge_anchors anchor_id).isSome then s.knowledge_anchors_count
              else s.knowledge_anchors_count + 1 },
   anchor_id, ["info"])

/-- Pointwise increment of one entry of the co-occurrence matrix. -/
def bump_pair (co : String → String → ℕ) (a b : String) : String → String → ℕ :=
  fun x y => if x = a ∧ y = b then co x y + 1 else co x y

/-- Body of the inner co-occurrence loop of update_marker_usage (lines
299-300): both directions of one pair are incremented. -/
def add_pair (co : String → String → ℕ) (m1 m2 : String) : String → String → ℕ :=
  bump_pair (bump_pair co m1 m2) m2 m1

/-- Inner loop of the co-occurrence update: one marker paired with every
later entry of the list. -/
def add_pairs_from (co : String → String → ℕ) (m1 : String) (rest : List String) :
    String → String → ℕ :=
  rest.foldl (fun c m2 => add_pair c m1 m2) co

/-- Outer loop of the co-occurrence update of update_marker_usage (lines
296-300), mirroring enumerate with the slice from i+1. -/
def update_co_pairs (co : String → String → ℕ) : List String → (String → String → ℕ)
  | [] => co
  | m1 :: rest => update_co_pairs (add_pairs_from co m1 rest) rest

/-- Method update_marker_usage of marker_manager.py (lines 286-300):
usage counts and usage patterns are bumped for the known markers (the
last_used stamp is not modelled), and when co_occurring is set and more
than one name was passed, every ordered pair from the double loop
increments both matrix directions. -/
def update_marker_usage (s : ManagerState) (marker_names : List String) (co_occurring : Bool) :
    ManagerState :=
  let step := fun (fp : (String → Option SemanticMarker) × (String → ℕ)) (name : String) =>
    match fp.1 name with
    | some m =>
        (fun k => if k = name then some { m with usage_count := m.usage_count + 1 } else fp.1 k,
         fun k => if k = name then fp.2 k + 1 else fp.2 k)
    | none => fp
  let updated := marker_names.foldl step (s.semantic_markers, s.usage_patterns)
  let co :=
    if co_occurring && decide (marker_names.length > 1) then
      update_co_pairs s.co_occurrence marker_names
    else s.co_occurrence
  { s with semantic_markers := updated.1, usage_patterns := updated.2, co_occurrence := co }

/-- Sequential application of update_marker_usage calls, each with its
marker name list and co_occurring flag. -/
def run_usage_updates (s : ManagerState) : List (List String × Bool) → ManagerState
  | [] => s
  | c :: rest => run_usage_updates (update_marker_usage s c.1 c.2) rest

/-- Symmetry of a co-occurrence matrix away from the diagonal. -/
def SymmOffDiag (co : String → String → ℕ) : Prop :=
  ∀ a b : String, a ≠ b → co a b = co b a

/-- Names imported from the datetime module by marker_manager.py (line
12 reads from datetime import datetime); timedelta is not among them. -/
def marker_manager_datetime_imports : List String := ["datetime"]

/-- Method analyze_marker_patterns of marker_manager.py (lines 352-382),
modelled up to its first statement: line 354 evaluates the expression
datetime.now() - timedelta(days=days), and the name timedelta must be
resolved against the imports of the module before any of the analysis
runs; an unresolved name raises NameError, modelled as the error value.
Under the import list of the file the remainder of the body is
unreachable and is therefore not embedded. -/
def analyze_marker_patterns (_s : ManagerState) (_days : ℕ) : Except String Unit :=
  if "timedelta" ∈ marker_manager_datetime_imports then
    Except.ok ()
  else
    Except.error "NameError: name timedelta is not defined"

/-- Marker used by the C8 witness, with integral weights. -/
def c8_marker : SKKMarker :=
  { id := "error_occurred", name := "Error Event", category := "error",
    description := "e", trigger_patterns := ["error"],
    semantic_weight := 1, anchor_strength := 1 }

/-- Claim C5: processing the experience (user, Das funktioniert immer
noch nicht, empty context) classifies the created thought as frustrated
(the frustrated cue list is consulted before the curious, positive and
negative ones, and the phrase immer noch occurs in the content) and, no
competence, relationship, autonomy or curiosity keyword being present,
assigns the drift axis emotional_resonance through the tone fallback. -/
theorem C5_frustrated_scenario :
    (process_experience_step default_skk_markers [] "user"
      "Das funktioniert immer noch nicht" {} "id0" 0).1.emotional_tone = "frustrated"
    ∧ (process_experience_step default_skk_markers [] "user"
      "Das funktioniert immer noch nicht" {} "id0" 0).1.drift_axis = "emotional_resonance" := by
  constructor <;> rfl


/-- Claim C4: the reflection decision fires exactly when the importance
is strictly greater than 0.7 or the reflection_trigger marker fired; at
the boundary, importance 0.70 does not fire while 0.71 does. -/
theorem C4_reflection_boundary (importance : ℚ) (marker_ids : List String) :
    (reflection_triggered importance marker_ids = true ↔
      ((7 : ℚ)/10 < importance ∨ "reflection_trigger" ∈ marker_ids))
    ∧ reflection_triggered (70/100) [] = false
    ∧ reflection_triggered (71/100) [] = true := by
  refine ⟨?_, ?_, ?_⟩
  · simp [reflection_triggered, List.elem_iff]
  · simp only [reflection_triggered, List.contains_nil, Bool.or_false,
      decide_eq_false_iff_not]
    norm_num
  · simp only [reflection_triggered, List.contains_nil, Bool.or_false,
      decide_eq_true_eq]
    norm_num

/-- Helper: a conditional bonus that is either a nonnegative amount or
zero is nonnegative. -/
theorem bonus_nonneg {b : Prop} [Decidable b] {q : ℚ} (h : 0 ≤ q) :
    0 ≤ if b then q else 0 := by
  split_ifs
  · exact h
  · exact le_refl 0

/-- Claim C1: the importance of a processed experience is the base 0.3,
plus the mean marker weight times 0.4 when markers fired, plus 0.2 for
an important or learn cue word, plus 0.3 for a user correction, plus 0.2
for a first time flag, plus 0.3 for an error recovery flag, clipped
above at 1.0; with nonnegative marker weights the result always lies
between 0 and 1. -/
theorem C1_importance_formula (content : String) (context : Context) (markers : List SKKMarker)
    (h : ∀ m ∈ markers, 0 ≤ m.semantic_weight) :
    calculate_importance content context markers =
      min 1 ((3 : ℚ)/10
        + (if markers.isEmpty then 0
            else ((markers.map (fun m => m.semantic_weight)).sum / (markers.length : ℚ)) * (4/10))
        + (if important_cue_words.any (fun w => containsSub w.toList (lowerChars content)) then (2 : ℚ)/10 else 0)
        + (if context.user_correction then (3 : ℚ)/10 else 0)
        + (if context.first_time then (2 : ℚ)/10 else 0)
        + (if context.error_recovery then (3 : ℚ)/10 else 0))
    ∧ 0 ≤ calculate_importance content context markers
    ∧ calculate_importance content context markers ≤ 1 := by
  have hform : calculate_importance content context markers =
      min 1 ((3 : ℚ)/10
        + (if markers.isEmpty then 0
            else ((markers.map (fun m => m.semantic_weight)).sum / (markers.length : ℚ)) * (4/10))
        + (if important_cue_words.any (fun w => containsSub w.toList (lowerChars content)) then (2 : ℚ)/10 else 0)
        + (if context.user_correction then (3 : ℚ)/10 else 0)
        + (if context.first_time then (2 : ℚ)/10 else 0)
        + (if context.error_recovery then (3 : ℚ)/10 else 0)) := by
    simp only [calculate_importance]
    rw [min_comm]
    congr 1
    split_ifs <;> ring
  have hmean : (0 : ℚ) ≤ (if markers.isEmpty then 0
      else ((markers.map (fun m => m.semantic_weight)).sum / (markers.length : ℚ)) * (4/10)) := by
    split_ifs with hm
    · exact le_refl 0
    · refine mul_nonneg (div_nonneg ?_ (Nat.cast_nonneg _)) (by norm_num)
      refine List.sum_nonneg ?_
      intro x hx
      rcases List.mem_map.mp hx with ⟨m, hmem, rfl⟩
      exact h m hmem
  refine ⟨hform, ?_, ?_⟩
  · rw [hform]
    refine le_min (by norm_num) ?_
    have h2 := bonus_nonneg (b := important_cue_words.any (fun w => containsSub w.toList (lowerChars content)) = true) (q := (2 : ℚ)/10) (by norm_num)
    have h3 := bonus_nonneg (b := context.user_correction = true) (q := (3 : ℚ)/10) (by norm_num)
    have h4 := bonus_nonneg (b := context.first_time = true) (q := (2 : ℚ)/10) (by norm_num)
    have h5 := bonus_nonneg (b := context.error_recovery = true) (q := (3 : ℚ)/10) (by norm_num)
    have hbase : (0 : ℚ) ≤ 3/10 := by norm_num
    exact add_nonneg (add_nonneg (add_nonneg (add_nonneg (add_nonneg hbase hmean) h2) h3) h4) h5
  · rw [hform]
    exact min_le_left 1 _

/-- Witness for C1 at the empty marker list and empty context. -/
theorem C1_importance_formula_witness :
    (∀ m ∈ ([] : List SKKMarker), 0 ≤ m.semantic_weight)
    ∧ (calculate_importance "x" {} [] =
        min 1 ((3 : ℚ)/10
          + (if ([] : List SKKMarker).isEmpty then 0
              else ((([] : List SKKMarker).map (fun m => m.semantic_weight)).sum / ((([] : List SKKMarker).length : ℕ) : ℚ)) * (4/10))
          + (if important_cue_words.any (fun w => containsSub w.toList (lowerChars "x")) then (2 : ℚ)/10 else 0)
          + (if ({} : Context).user_correction then (3 : ℚ)/10 else 0)
          + (if ({} : Context).first_time then (2 : ℚ)/10 else 0)
          + (if ({} : Context).error_recovery then (3 : ℚ)/10 else 0))
      ∧ 0 ≤ calculate_importance "x" {} []
      ∧ calculate_importance "x" {} [] ≤ 1) :=
  ⟨by simp, C1_importance_formula "x" {} [] (by simp)⟩

/-- Helper for C2: the source similarity agrees with the spec form that
lists the weights first. -/
theorem similarity_spec_form (t e : Thought) :
    calculate_semantic_similarity t e =
      (4 : ℚ)/10 * jaccard t.tags.toFinset e.tags.toFinset
        + (3 : ℚ)/10 * jaccard t.skk_markers.toFinset e.skk_markers.toFinset
        + (2 : ℚ)/10 * (if t.drift_axis = e.drift_axis then 1 else 0)
        + (1 : ℚ)/10 * max 0 (1 - |t.timestamp - e.timestamp| / (24 * 3600)) := by
  simp only [calculate_semantic_similarity]
  ring

/-- Claim C2: a new thought is connected exactly to the existing
thoughts, taken in encounter order and truncated to the first five,
whose similarity 0.4 tag Jaccard + 0.3 marker Jaccard + 0.2 same-axis +
0.1 time proximity strictly exceeds 0.3; in the concrete scenario of two
thoughts sharing two of three tags and the drift axis, created thirty
seconds apart with disjoint markers, the connection is made. -/
theorem C2_connection_rule (existing : List Thought) (t : Thought) :
    find_semantic_connections existing t =
      ((existing.filter (fun e => e.id != t.id &&
          decide ((4 : ℚ)/10 * jaccard t.tags.toFinset e.tags.toFinset
            + (3 : ℚ)/10 * jaccard t.skk_markers.toFinset e.skk_markers.toFinset
            + (2 : ℚ)/10 * (if t.drift_axis = e.drift_axis then 1 else 0)
            + (1 : ℚ)/10 * max 0 (1 - |t.timestamp - e.timestamp| / (24 * 3600)) > 3/10))).map (fun e => e.id)).take 5
    ∧ find_semantic_connections [c2_old_thought] c2_new_thought = [c2_old_thought.id] := by
  constructor
  · unfold find_semantic_connections
    simp only [similarity_spec_form]
  · have h1 : ((["p", "q", "s"].toFinset ∪ ["p", "q", "r"].toFinset : Finset String)) ≠ ∅ := by decide
    have h2 : ((["p", "q", "s"].toFinset ∩ ["p", "q", "r"].toFinset : Finset String)).card = 2 := by decide
    have h3 : ((["p", "q", "s"].toFinset ∪ ["p", "q", "r"].toFinset : Finset String)).card = 4 := by decide
    have h4 : ((["task_completion"].toFinset ∪ ["user_interaction"].toFinset : Finset String)) ≠ ∅ := by decide
    have h5 : ((["task_completion"].toFinset ∩ ["user_interaction"].toFinset : Finset String)).card = 0 := by decide
    have h6 : ((["task_completion"].toFinset ∪ ["user_interaction"].toFinset : Finset String)).card = 2 := by decide
    have h8 : max (0 : ℚ) (1 - |(30 : ℚ) - 0| / (24 * 3600)) = 1 - 30/(24*3600) := by
      rw [sub_zero, abs_of_nonneg (by norm_num : (0:ℚ) ≤ 30)]
      exact max_eq_right (by norm_num : (0:ℚ) ≤ 1 - 30/(24*3600))
    have hgt : calculate_semantic_similarity c2_new_thought c2_old_thought > 3/10 := by
      simp only [calculate_semantic_similarity, c2_new_thought, c2_old_thought, jaccard,
        if_neg h1, if_neg h4, h2, h3, h5, h6, h8, if_pos rfl]
      norm_num
    have hfil : (c2_old_thought.id != c2_new_thought.id &&
        decide (calculate_semantic_similarity c2_new_thought c2_old_thought > 3/10)) = true := by
      simp only [Bool.and_eq_true, bne_iff_ne, decide_eq_true_eq]
      exact ⟨by simp [c2_old_thought, c2_new_thought], hgt⟩
    unfold find_semantic_connections
    simp [List.filter_cons, hfil]

/-- Helper for C3: the reflection notes after an axis update, in a
single drop form (a Nat subtraction that is zero when no truncation is
needed). -/
theorem update_cosd_axis_notes_eq (axis : CoSDAxis) (t : Thought) :
    (update_cosd_axis axis t).reflection_notes =
      if |tone_delta_factor t.emotional_tone * t.importance| > 1/10 then
        (axis.reflection_notes
            ++ [CoSDNote.mk (noteSnippet t.content) (tone_delta_factor t.emotional_tone * t.importance)]).drop
          (axis.reflection_notes.length + 1 - 10)
      else axis.reflection_notes := by
  simp only [update_cosd_axis]
  split_ifs with h1 h2
  · simp [List.length_append]
  · have h0 : axis.reflection_notes.length + 1 - 10 = 0 := by
      simp only [List.length_append, List.length_cons, List.length_nil] at h2
      omega
    simp [h0]
  · rfl

/-- Claim C3: an axis update moves the position by the tone factor times
the importance, clipped to the interval from -1 to 1 (so positions stay
in range), records the trend as the difference of positions, appends a
note holding the content prefix and the delta exactly when the absolute
delta exceeds 0.1, and caps the note list at ten entries by dropping the
oldest; the tone factor table is 0.1, -0.1, -0.2, 0.05 and otherwise 0. -/
theorem C3_axis_update (axis : CoSDAxis) (t : Thought) (d : ℚ)
    (hd : d = tone_delta_factor t.emotional_tone * t.importance)
    (hlen : axis.reflection_notes.length ≤ 10) :
    (update_cosd_axis axis t).current_position = max (-1) (min 1 (axis.current_position + d))
    ∧ -1 ≤ (update_cosd_axis axis t).current_position
    ∧ (update_cosd_axis axis t).current_position ≤ 1
    ∧ (update_cosd_axis axis t).movement_trend
        = (update_cosd_axis axis t).current_position - axis.current_position
    ∧ (|d| > 1/10 →
        (update_cosd_axis axis t).reflection_notes
          = (axis.reflection_notes ++ [CoSDNote.mk (noteSnippet t.content) d]).drop
              (axis.reflection_notes.length + 1 - 10))
    ∧ (|d| ≤ 1/10 → (update_cosd_axis axis t).reflection_notes = axis.reflection_notes)
    ∧ (update_cosd_axis axis t).reflection_notes.length ≤ 10
    ∧ tone_delta_factor "positive" = 1/10 ∧ tone_delta_factor "negative" = -(1/10)
    ∧ tone_delta_factor "frustrated" = -(2/10) ∧ tone_delta_factor "curious" = 1/20
    ∧ tone_delta_factor "neutral" = 0 := by
  subst hd
  refine ⟨rfl, le_max_left _ _, max_le (by norm_num) (min_le_left _ _), rfl,
    ?_, ?_, ?_, rfl, rfl, rfl, rfl, rfl⟩
  · intro hgt
    rw [update_cosd_axis_notes_eq, if_pos hgt]
  · intro hle
    rw [update_cosd_axis_notes_eq, if_neg (not_lt.mpr hle)]
  · rw [update_cosd_axis_notes_eq]
    split_ifs with hgt
    · simp only [List.length_drop, List.length_append, List.length_cons, List.length_nil]
      omega
    · exact hlen

/-- Witness for C3 at a frustrated thought of importance one on a fresh
axis. -/
theorem C3_axis_update_witness :
    (tone_delta_factor c3_thought.emotional_tone * c3_thought.importance
        = tone_delta_factor c3_thought.emotional_tone * c3_thought.importance
      ∧ c3_axis.reflection_notes.length ≤ 10)
    ∧ ((update_cosd_axis c3_axis c3_thought).current_position
          = max (-1) (min 1 (c3_axis.current_position
              + tone_delta_factor c3_thought.emotional_tone * c3_thought.importance))
      ∧ -1 ≤ (update_cosd_axis c3_axis c3_thought).current_position
      ∧ (update_cosd_axis c3_axis c3_thought).current_position ≤ 1
      ∧ (update_cosd_axis c3_axis c3_thought).movement_trend
          = (update_cosd_axis c3_axis c3_thought).current_position - c3_axis.current_position
      ∧ (|tone_delta_factor c3_thought.emotional_tone * c3_thought.importance| > 1/10 →
          (update_cosd_axis c3_axis c3_thought).reflection_notes
            = (c3_axis.reflection_notes
                ++ [CoSDNote.mk (noteSnippet c3_thought.content)
                      (tone_delta_factor c3_thought.emotional_tone * c3_thought.importance)]).drop
                (c3_axis.reflection_notes.length + 1 - 10))
      ∧ (|tone_delta_factor c3_thought.emotional_tone * c3_thought.importance| ≤ 1/10 →
          (update_cosd_axis c3_axis c3_thought).reflection_notes = c3_axis.reflection_notes)
      ∧ (update_cosd_axis c3_axis c3_thought).reflection_notes.length ≤ 10
      ∧ tone_delta_factor "positive" = 1/10 ∧ tone_delta_factor "negative" = -(1/10)
      ∧ tone_delta_factor "frustrated" = -(2/10) ∧ tone_delta_factor "curious" = 1/20
      ∧ tone_delta_factor "neutral" = 0) :=
  ⟨⟨rfl, by decide⟩, C3_axis_update c3_axis c3_thought _ rfl (by decide)⟩

/-- Helper for C6: folding the preference bump over the tag list adds
the occurrence count of the key to its counter. -/
theorem foldl_preference_count (tags : List String) (p : String → ℕ) (k : String) :
    (tags.foldl (fun p tag => fun k => if k = tag then p k + 1 else p k) p) k
      = p k + tags.count k := by
  induction tags generalizing p with
  | nil => simp
  | cons a l ih =>
      rw [List.foldl_cons, ih, List.count_cons]
      by_cases hk : k = a
      · subst hk
        simp only [if_pos, beq_self_eq_true, if_true]
        omega
      · have hka : (a == k) = false := beq_eq_false_iff_ne.mpr (Ne.symm hk)
        simp only [hk, hka, Bool.false_eq_true, if_false]
        omega

/-- Counterexample to C6 as stated: a thought carrying the
user_interaction marker whose tone is frustrated leaves the preference
counter of its tag unchanged, where the claim requires an increment for
every tone. -/
theorem C6_counterexample :
    c6_frustrated_thought.skk_markers.contains "user_interaction" = true
    ∧ "x" ∈ c6_frustrated_thought.tags
    ∧ (update_self_narrative c6_narrative c6_frustrated_thought 1).preferences "x"
        ≠ c6_narrative.preferences "x" + 1 := by
  refine ⟨rfl, ?_, ?_⟩
  · simp [c6_frustrated_thought]
  · decide

/-- Claim C6 as amended: when a thought carries the user_interaction
marker, the preference counter of every key grows by the number of
occurrences of the key among the tags when the tone is positive, is
unchanged for any other tone, and in either case never decreases. -/
theorem C6_preferences_rule (n : SelfNarrative) (t : Thought) (now : ℚ) (k : String)
    (h : t.skk_markers.contains "user_interaction" = true) :
    (t.emotional_tone = "positive" →
        (update_self_narrative n t now).preferences k = n.preferences k + t.tags.count k)
    ∧ (t.emotional_tone ≠ "positive" →
        (update_self_narrative n t now).preferences k = n.preferences k)
    ∧ n.preferences k ≤ (update_self_narrative n t now).preferences k := by
  have hpref : (update_self_narrative n t now).preferences =
      if t.emotional_tone = "positive" then
        t.tags.foldl (fun p tag => fun k => if k = tag then p k + 1 else p k) n.preferences
      else n.preferences := by
    simp only [update_self_narrative, h, beq_iff_eq, if_true]
  refine ⟨?_, ?_, ?_⟩
  · intro hpos
    rw [hpref, if_pos hpos, foldl_preference_count]
  · intro hneg
    rw [hpref, if_neg hneg]
  · rw [hpref]
    split_ifs with hpos
    · rw [foldl_preference_count]
      exact Nat.le_add_right _ _
    · exact le_refl _

/-- Witness for C6 as amended, at a positive-tone user interaction. -/
theorem C6_preferences_rule_witness :
    c6_positive_thought.skk_markers.contains "user_interaction" = true
    ∧ ((c6_positive_thought.emotional_tone = "positive" →
          (update_self_narrative c6_narrative c6_positive_thought 1).preferences "x"
            = c6_narrative.preferences "x" + c6_positive_thought.tags.count "x")
      ∧ (c6_positive_thought.emotional_tone ≠ "positive" →
          (update_self_narrative c6_narrative c6_positive_thought 1).preferences "x"
            = c6_narrative.preferences "x")
      ∧ c6_narrative.preferences "x"
          ≤ (update_self_narrative c6_narrative c6_positive_thought 1).preferences "x") :=
  ⟨rfl, C6_preferences_rule c6_narrative c6_positive_thought 1 "x" rfl⟩

/-- Claim C7: the claim expects two consecutive analyze_patterns calls
to return identical results without mutation; on the source as written
every call raises NameError before reading any state, because line 354
uses timedelta while the module imports only datetime, so no call
returns a result at all: the theorem evaluates the model of the call at
every state and at the concrete failing input. -/
theorem C7_analyze_patterns_raises (s : ManagerState) (days : ℕ) :
    analyze_marker_patterns s days
      = Except.error "NameError: name timedelta is not defined"
    ∧ analyze_marker_patterns initial_manager_state 30
      = Except.error "NameError: name timedelta is not defined" := by
  constructor <;> rfl

/-- Counterexample to C8 as stated: with content error and event type
error, the error_occurred marker is appended once by the pattern loop
and once by the category check, so it occurs twice in the result, where
the claim requires at most one occurrence. -/
theorem C8_counterexample :
    ((detect_skk_markers default_skk_markers "error" "error").map (fun m => m.id)).count
      "error_occurred" = 2 := by
  rfl

/-- Helper for C8: the number of occurrences of a marker in the
detection result is its count in the registry times the number of
satisfied trigger conditions (pattern hit and category match). -/
theorem detectLoop_count (cl : List Char) (event_type : String) (ms : List SKKMarker)
    (m : SKKMarker) :
    (detectLoop cl event_type ms).count m
      = ms.count m
        * ((if m.trigger_patterns.any (fun p => containsSub (p.toList.map Char.toLower) cl) then 1 else 0)
          + (if m.category == event_type then 1 else 0)) := by
  induction ms with
  | nil => simp [detectLoop]
  | cons a rest ih =>
      simp only [detectLoop, List.count_append, ih, List.count_cons]
      by_cases ham : a = m
      · subst ham
        have h1 : ∀ (c : Prop) [Decidable c],
            (if c then [a] else []).count a = if c then 1 else 0 := by
          intro c hc
          split_ifs <;> simp
        rw [h1, h1]
        simp only [beq_self_eq_true, if_true]
        ring
      · have hab : (a == m) = false := beq_eq_false_iff_ne.mpr ham
        have h0 : ∀ (c : Prop) [Decidable c],
            (if c then [a] else []).count m = 0 := by
          intro c hc
          split_ifs with hcc
          · simp [List.count_cons, hab]
          · simp
        rw [h0, h0, hab]
        simp

/-- Claim C8 as amended: a marker appears in the detection result
exactly when it is registered and one of its lowered trigger substrings
occurs in the lowered content or its category equals the event type; a
marker registered once appears at most twice (once per satisfied
condition), rather than at most once. -/
theorem C8_detect_rule (markers : List SKKMarker) (content event_type : String) (m : SKKMarker)
    (hnodup : markers.count m ≤ 1) :
    (m ∈ detect_skk_markers markers content event_type ↔
      m ∈ markers
        ∧ (m.trigger_patterns.any (fun p => containsSub (p.toList.map Char.toLower) (lowerChars content)) = true
          ∨ m.category = event_type))
    ∧ (detect_skk_markers markers content event_type).count m ≤ 2 := by
  have hcount := detectLoop_count (lowerChars content) event_type markers m
  have hK : ((if m.trigger_patterns.any (fun p => containsSub (p.toList.map Char.toLower) (lowerChars content)) then 1 else 0)
      + (if m.category == event_type then 1 else 0)) ≤ 2 := by
    split_ifs <;> norm_num
  constructor
  · rw [← List.count_pos_iff, ← List.count_pos_iff (l := markers)]
    unfold detect_skk_markers
    rw [hcount]
    rw [Nat.pos_iff_ne_zero, Nat.pos_iff_ne_zero, Nat.mul_ne_zero_iff]
    constructor
    · rintro ⟨hc, hk⟩
      refine ⟨hc, ?_⟩
      by_contra hno
      push_neg at hno
      apply hk
      rw [if_neg, if_neg]
      · exact fun hcat => hno.2 (beq_iff_eq.mp hcat)
      · exact fun hpat => hno.1 hpat
    · rintro ⟨hc, hk⟩
      refine ⟨hc, ?_⟩
      rcases hk with hpat | hcat
      · rw [if_pos hpat]
        omega
      · rw [if_pos (beq_iff_eq.mpr hcat)]
        split_ifs <;> omega
  · unfold detect_skk_markers
    rw [hcount]
    calc markers.count m * _ ≤ 1 * 2 := Nat.mul_le_mul hnodup hK
    _ = 2 := by norm_num

/-- Witness for C8 as amended at a one-marker registry whose marker is
hit by both its pattern and its category. -/
theorem C8_detect_rule_witness :
    [c8_marker].count c8_marker ≤ 1
    ∧ ((c8_marker ∈ detect_skk_markers [c8_marker] "error" "error" ↔
        c8_marker ∈ [c8_marker]
          ∧ (c8_marker.trigger_patterns.any (fun p => containsSub (p.toList.map Char.toLower) (lowerChars "error")) = true
            ∨ c8_marker.category = "error"))
      ∧ (detect_skk_markers [c8_marker] "error" "error").count c8_marker ≤ 2) :=
  ⟨by decide, C8_detect_rule [c8_marker] "error" "error" c8_marker (by decide)⟩

/-- Helper for C9: once a marker already carries the anchor id, the
remaining linking steps leave its entry unchanged. -/
theorem link_anchor_keeps (aid : String) (ids : List String)
    (f : String → Option SemanticMarker) (mid : String) (m : SemanticMarker)
    (hf : f mid = some m) (hin : aid ∈ m.connections) :
    (ids.foldl (link_anchor_step aid) f) mid = some m := by
  induction ids generalizing f with
  | nil => exact hf
  | cons a l ih =>
      refine ih _ ?_
      unfold link_anchor_step
      cases hfa : f a with
      | none => exact hf
      | some ma =>
          by_cases hma : mid = a
          · subst hma
            rw [hf] at hfa
            cases hfa
            simp [hin]
          · simp only [if_neg hma]
            exact hf

/-- Helper for C9: a known marker among the referenced ids, not yet
carrying the anchor id, ends the linking fold with the id appended. -/
theorem link_anchor_adds (aid : String) (ids : List String)
    (f : String → Option SemanticMarker) (mid : String) (m : SemanticMarker)
    (hmem : mid ∈ ids) (hf : f mid = some m) (hnin : aid ∉ m.connections) :
    (ids.foldl (link_anchor_step aid) f) mid
      = some { m with connections := m.connections ++ [aid] } := by
  induction ids generalizing f with
  | nil => cases hmem
  | cons a l ih =>
      by_cases ha : mid = a
      · subst ha
        have hstep : (link_anchor_step aid f mid) mid
            = some { m with connections := m.connections ++ [aid] } := by
          unfold link_anchor_step
          rw [hf]
          simp [hnin]
        exact link_anchor_keeps aid l _ mid _ hstep (by simp)
      · have hstep : (link_anchor_step aid f a) mid = some m := by
          unfold link_anchor_step
          cases hfa : f a with
          | none => exact hf
          | some ma =>
              simp only [if_neg ha]
              exact hf
        have hmem2 : mid ∈ l := by
          cases hmem with
          | head => exact absurd rfl ha
          | tail _ h => exact h
        exact ih _ hmem2 hstep

/-- Counterexample to C9 as stated: creating an anchor over one known
marker of weight 1 and one unknown id stores strength 0.5 (the sum of
known weights divided by the full id count), while the mean of the known
referenced markers is 1, and the emitted log records carry no warning
level, only the single closing info record. -/
theorem C9_counterexample :
    ((create_knowledge_anchor initial_manager_state "Test" "d"
        ["self_awareness", "ghost_marker"] "semantic").1.knowledge_anchors
          (anchor_id_for initial_manager_state "Test")).map (fun a => a.strength)
      = some (1/2)
    ∧ ((["self_awareness", "ghost_marker"].filterMap
          (fun mid => (initial_manager_state.semantic_markers mid).map (fun m => m.weight))).sum
        / ((["self_awareness", "ghost_marker"].filterMap
          (fun mid => (initial_manager_state.semantic_markers mid).map (fun m => m.weight))).length : ℚ))
      = 1
    ∧ ((1 : ℚ)/2) ≠ 1
    ∧ (create_knowledge_anchor initial_manager_state "Test" "d"
        ["self_awareness", "ghost_marker"] "semantic").2.2 = ["info"] := by
  have hws : (["self_awareness", "ghost_marker"].filterMap
      (fun mid => (initial_manager_state.semantic_markers mid).map (fun m => m.weight))) = [1] := by
    rfl
  refine ⟨?_, ?_, by norm_num, rfl⟩
  · simp only [create_knowledge_anchor, eq_self_iff_true, if_true, Option.map_some']
    congr 1
    rw [if_neg (by decide : ¬ ((["self_awareness", "ghost_marker"] : List String).isEmpty = true)), hws]
    norm_num [min_def]
  · rw [hws]
    norm_num

/-- Claim C9 as amended: create_anchor never rejects the call; unknown
marker ids are silently skipped (no warning is logged: the call emits a
single info record), a possibly partial anchor is stored under the
returned id, its strength is the sum of the known referenced weights
divided by the total count of passed ids and capped at 1, and the new
anchor id is appended to the connections of each known referenced marker
not already carrying it. -/
theorem C9_anchor_creation (s : ManagerState) (name description knowledge_type : String)
    (marker_ids : List String) (mid : String) (m : SemanticMarker)
    (hmid : mid ∈ marker_ids)
    (hm : s.semantic_markers mid = some m)
    (hfresh : anchor_id_for s name ∉ m.connections) :
    (create_knowledge_anchor s name description marker_ids knowledge_type).2.2 = ["info"]
    ∧ (create_knowledge_anchor s name description marker_ids knowledge_type).2.1
        = anchor_id_for s name
    ∧ (create_knowledge_anchor s name description marker_ids knowledge_type).1.knowledge_anchors
        (anchor_id_for s name)
      = some (KnowledgeAnchor.mk (anchor_id_for s name) name description marker_ids
          (if marker_ids.isEmpty then 0
            else min 1 ((marker_ids.filterMap
                (fun i => (s.semantic_markers i).map (fun mk => mk.weight))).sum
              / (marker_ids.length : ℚ)))
          knowledge_type [])
    ∧ (create_knowledge_anchor s name description marker_ids knowledge_type).1.semantic_markers mid
        = some { m with connections := m.connections ++ [anchor_id_for s name] } := by
  refine ⟨rfl, rfl, ?_, ?_⟩
  · simp only [create_knowledge_anchor, eq_self_iff_true, if_true]
  · simp only [create_knowledge_anchor]
    exact link_anchor_adds (anchor_id_for s name) marker_ids s.semantic_markers mid m hmid hm hfresh

/-- Witness for C9 as amended: anchoring the known self_awareness marker
together with an unknown id on the initial registry. -/
theorem C9_anchor_creation_witness :
    ("self_awareness" ∈ (["self_awareness", "ghost_marker"] : List String)
      ∧ initial_manager_state.semantic_markers "self_awareness"
          = some (SemanticMarker.mk "self_awareness" "consciousness" 1 "experience" [] 0)
      ∧ anchor_id_for initial_manager_state "Test"
          ∉ (SemanticMarker.mk "self_awareness" "consciousness" 1 "experience" [] 0).connections)
    ∧ ((create_knowledge_anchor initial_manager_state "Test" "d"
          ["self_awareness", "ghost_marker"] "semantic").2.2 = ["info"]
      ∧ (create_knowledge_anchor initial_manager_state "Test" "d"
          ["self_awareness", "ghost_marker"] "semantic").2.1
            = anchor_id_for initial_manager_state "Test"
      ∧ (create_knowledge_anchor initial_manager_state "Test" "d"
          ["self_awareness", "ghost_marker"] "semantic").1.knowledge_anchors
            (anchor_id_for initial_manager_state "Test")
          = some (KnowledgeAnchor.mk (anchor_id_for initial_manager_state "Test") "Test" "d"
              ["self_awareness", "ghost_marker"]
              (if (["self_awareness", "ghost_marker"] : List String).isEmpty then 0
                else min 1 (((["self_awareness", "ghost_marker"] : List String).filterMap
                    (fun i => (initial_manager_state.semantic_markers i).map (fun mk => mk.weight))).sum
                  / (((["self_awareness", "ghost_marker"] : List String).length : ℕ) : ℚ)))
              "semantic" [])
      ∧ (create_knowledge_anchor initial_manager_state "Test" "d"
          ["self_awareness", "ghost_marker"] "semantic").1.semantic_markers "self_awareness"
          = some { SemanticMarker.mk "self_awareness" "consciousness" 1 "experience" [] 0 with
              connections := (SemanticMarker.mk "self_awareness" "consciousness" 1 "experience" [] 0).connections
                ++ [anchor_id_for initial_manager_state "Test"] }) :=
  ⟨⟨by decide, rfl, by decide⟩,
    C9_anchor_creation initial_manager_state "Test" "d" "semantic"
      ["self_awareness", "ghost_marker"] "self_awareness"
      (SemanticMarker.mk "self_awareness" "consciousness" 1 "experience" [] 0)
      (by decide) rfl (by decide)⟩

/-- Helper for C10: one entry bump written as an unconditional sum. -/
theorem bump_pair_apply (co : String → String → ℕ) (a b x y : String) :
    bump_pair co a b x y = co x y + (if x = a ∧ y = b then 1 else 0) := by
  unfold bump_pair
  split_ifs <;> simp

/-- Helper for C10: incrementing both directions of one pair preserves
off-diagonal symmetry. -/
theorem add_pair_symm (co : String → String → ℕ) (m1 m2 : String)
    (h : SymmOffDiag co) : SymmOffDiag (add_pair co m1 m2) := by
  intro a b hab
  unfold add_pair
  simp only [bump_pair_apply]
  rw [h a b hab]
  rw [if_congr (and_comm (a := a = m2) (b := b = m1)) rfl rfl,
      if_congr (and_comm (a := a = m1) (b := b = m2)) rfl rfl]
  ring

/-- Helper for C10: the inner pairing loop preserves symmetry. -/
theorem add_pairs_from_symm (m1 : String) (rest : List String)
    (co : String → String → ℕ) (h : SymmOffDiag co) :
    SymmOffDiag (add_pairs_from co m1 rest) := by
  induction rest generalizing co with
  | nil => exact h
  | cons a l ih => exact ih _ (add_pair_symm _ _ _ h)

/-- Helper for C10: the outer pairing loop preserves symmetry. -/
theorem update_co_pairs_symm (names : List String) (co : String → String → ℕ)
    (h : SymmOffDiag co) : SymmOffDiag (update_co_pairs co names) := by
  induction names generalizing co with
  | nil => exact h
  | cons a l ih => exact ih _ (add_pairs_from_symm _ _ _ h)

/-- Helper for C10: a usage update preserves off-diagonal symmetry of
the co-occurrence matrix. -/
theorem update_marker_usage_symm (s : ManagerState) (names : List String) (c : Bool)
    (h : SymmOffDiag s.co_occurrence) :
    SymmOffDiag (update_marker_usage s names c).co_occurrence := by
  simp only [update_marker_usage]
  split_ifs with hc
  · exact update_co_pairs_symm _ _ h
  · exact h

/-- Claim C10: starting from the empty matrix, any sequence of
update_marker_usage calls leaves the co-occurrence matrix symmetric on
every pair of distinct markers. -/
theorem C10_co_occurrence_symmetric (calls : List (List String × Bool)) (a b : String)
    (h : a ≠ b) :
    (run_usage_updates initial_manager_state calls).co_occurrence a b
      = (run_usage_updates initial_manager_state calls).co_occurrence b a := by
  have key : ∀ s : ManagerState, SymmOffDiag s.co_occurrence →
      SymmOffDiag (run_usage_updates s calls).co_occurrence := by
    induction calls with
    | nil => exact fun s hs => hs
    | cons c rest ih => exact fun s hs => ih _ (update_marker_usage_symm _ _ _ hs)
  exact key initial_manager_state (fun x y _ => rfl) a b h

/-- Witness for C10 at one co-occurring pair of distinct names. -/
theorem C10_co_occurrence_symmetric_witness :
    "alpha" ≠ "beta"
    ∧ (run_usage_updates initial_manager_state [(["alpha", "beta"], true)]).co_occurrence "alpha" "beta"
        = (run_usage_updates initial_manager_state [(["alpha", "beta"], true)]).co_occurrence "beta" "alpha" :=
  ⟨by decide, C10_co_occurrence_symmetric [(["alpha", "beta"], true)] "alpha" "beta" (by decide)⟩

end THORMind
